import Mathlib

/-!
Verification of the wanderer route-animation engine.

Shallow embedding of the Python sources:
  * `src/wanderer/position2d.py`  — `Position2D` (2D vector arithmetic),
  * `src/wanderer/utils.py`       — `lerp`, `points_between`,
  * `src/wanderer/game.py`        — location resolution, route parsing,
                                    `GameMap.get_crop_at_position`,
  * `src/wanderer/renderer.py`    — phase dispatch, movement rendering,
                                    map transitions.

Python floats are modelled as real numbers; Python `int` as `ℤ`.
Exceptions are modelled with `Except PyErr`; the external libraries
`slugify` and `rapidfuzz.fuzz.ratio` are taken as opaque function
parameters of the resolver.
-/

/-- Python's `int(x)` on a float: truncation toward zero. -/
def pyInt {α : Type} [LinearOrderedRing α] [FloorRing α] (x : α) : ℤ :=
  if 0 ≤ x then ⌊x⌋ else ⌈x⌉

/-- `Position2D` from `src/wanderer/position2d.py`: a pair of floats. -/
structure Position2D where
  x : ℝ
  y : ℝ

instance : Sub Position2D :=
  ⟨fun a b => ⟨a.x - b.x, a.y - b.y⟩⟩

instance : Add Position2D :=
  ⟨fun a b => ⟨a.x + b.x, a.y + b.y⟩⟩

/-- `Position2D.__mul__`: scaling by a float. -/
instance : HMul Position2D ℝ Position2D :=
  ⟨fun a k => ⟨a.x * k, a.y * k⟩⟩

/-- `Position2D.__truediv__`: division by a float. -/
noncomputable instance : HDiv Position2D ℝ Position2D :=
  ⟨fun a k => ⟨a.x / k, a.y / k⟩⟩

/-- `Position2D.magnitude`: `sqrt(x**2 + y**2)`. -/
noncomputable def Position2D.magnitude (p : Position2D) : ℝ :=
  Real.sqrt (p.x ^ 2 + p.y ^ 2)

/-- `Position2D.unit`: `self / self.magnitude()`.  (Python raises
`ZeroDivisionError` at magnitude 0; the sole caller `points_between`
only reaches it with a nonzero vector.) -/
noncomputable def Position2D.unit (p : Position2D) : Position2D :=
  p / p.magnitude

theorem Position2D.ext_iff_mk {a b : Position2D} : a = b ↔ a.x = b.x ∧ a.y = b.y := by
  constructor
  · rintro rfl; exact ⟨rfl, rfl⟩
  · rcases a with ⟨ax, ay⟩
    rcases b with ⟨bx, by'⟩
    rintro ⟨h1, h2⟩
    simp only at h1 h2
    rw [h1, h2]

/-- `lerp` from `src/wanderer/utils.py` (the `assert 0 <= delta <= 1.0` is a
precondition of callers and is carried as a hypothesis where needed). -/
noncomputable def lerp (start stop : Position2D) (delta : ℝ) : Position2D :=
  start + (stop - start) * delta

/-- The list comprehension inside `points_between`:
`[start + (end - start).unit() * i * movement_speed for i in range(moves)]`
with `moves = math.ceil(distance / movement_speed)`. -/
noncomputable def interp_samples (s e : Position2D) (movement_speed : ℝ) :
    List Position2D :=
  (List.range ⌈(e - s).magnitude / movement_speed⌉₊).map
    (fun i : ℕ => s + (e - s).unit * ((i : ℝ) * movement_speed))

open Classical in
/-- `points_between` from `src/wanderer/utils.py`.

```
assert movement_speed > 0        -- AssertionError modelled as `none`
if start == end: return [start]
distance = (end - start).magnitude()
moves = math.ceil(distance / movement_speed)
points = [start + (end - start).unit() * i * movement_speed for i in range(moves)]
if points[-1] == end: return points
return points + [end]
```

`points[-1] == end` is modelled as `points.getLast? = some e` (the list is
never empty when the test is reached, since `distance > 0` forces
`moves ≥ 1`). -/
noncomputable def points_between (s e : Position2D) (movement_speed : ℝ) :
    Option (List Position2D) :=
  if movement_speed ≤ 0 then none
  else if s = e then some [s]
  else
    let points := interp_samples s e movement_speed
    if points.getLast? = some e then some points else some (points ++ [e])

/-- Python exceptions raised by the engine.  All but `indexError` and
`attributeError` are `ValueError`s in the source; the constructors record
the distinct raise sites (and the data interpolated into the message). -/
inductive PyErr where
  | indexError : PyErr
  | attributeError : PyErr
  | tooManyLocations (name : String) : PyErr
  | locationNotFound (name : String) (suggestions : List String) : PyErr
  | unknownMovementType (name : String) : PyErr
  | tooManyMovementTypes (name : String) : PyErr
  | badRouteLine (line : String) : PyErr
  | cropTooLarge : PyErr
  | assertionError : PyErr
  deriving DecidableEq

/-- `GameMap.get_crop_at_position` from `src/wanderer/game.py`:

```
height, width = crop_size
if width > self.image_size.x or height > self.image_size.y:
    raise ValueError(...)
center_x = int(max(width / 2, min(position.x, self.image_size.x - width / 2)))
center_y = int(max(height / 2, min(position.y, self.image_size.y - height / 2)))
return (int(center_x - width / 2), int(center_y - height / 2),
        int(center_x + width / 2), int(center_y + height / 2))
```

`image_size` is the map's pixel size (`Position2D`), `crop_size` an int
pair whose first component is the height and second the width. -/
noncomputable def get_crop_at_position (image_size : Position2D)
    (position : Position2D) (crop_size : ℤ × ℤ) :
    Except PyErr (ℤ × ℤ × ℤ × ℤ) :=
  let height := crop_size.1
  let width := crop_size.2
  if (width : ℝ) > image_size.x ∨ (height : ℝ) > image_size.y then
    .error .cropTooLarge
  else
    let center_x : ℤ :=
      pyInt (max ((width : ℝ) / 2) (min position.x (image_size.x - (width : ℝ) / 2)))
    let center_y : ℤ :=
      pyInt (max ((height : ℝ) / 2) (min position.y (image_size.y - (height : ℝ) / 2)))
    .ok (pyInt ((center_x : ℝ) - (width : ℝ) / 2),
         pyInt ((center_y : ℝ) - (height : ℝ) / 2),
         pyInt ((center_x : ℝ) + (width : ℝ) / 2),
         pyInt ((center_y : ℝ) + (height : ℝ) / 2))

theorem pyInt_nonneg {x : ℝ} (h : (-1 : ℝ) < x) : 0 ≤ pyInt x := by
  unfold pyInt
  split
  · exact Int.floor_nonneg.mpr (by assumption)
  · have h2 : ((-1 : ℤ) : ℝ) < x := by push_cast; exact h
    have := Int.lt_ceil.mpr h2
    omega

theorem pyInt_le {x : ℝ} {n : ℤ} (hx : x ≤ (n : ℝ)) (hn : 0 ≤ n) : pyInt x ≤ n := by
  unfold pyInt
  split
  · exact (Int.floor_mono hx).trans_eq (Int.floor_intCast n)
  · have hx0 : x ≤ 0 := le_of_lt (lt_of_not_ge (by assumption))
    exact (Int.ceil_le.mpr (by exact_mod_cast hx0)).trans hn

theorem pyInt_le_self {x : ℝ} (h : 0 ≤ x) : (pyInt x : ℝ) ≤ x := by
  unfold pyInt
  rw [if_pos h]
  exact Int.floor_le x

theorem pyInt_nonpos {x : ℝ} (h : x ≤ 0) : pyInt x ≤ 0 := by
  unfold pyInt
  split
  · have hx0 : x = 0 := le_antisymm h (by assumption)
    subst hx0
    simp
  · exact Int.ceil_le.mpr (by exact_mod_cast h)

theorem pyInt_lower (x : ℝ) : x - 1 < (pyInt x : ℝ) := by
  unfold pyInt
  split
  · exact Int.sub_one_lt_floor x
  · have := Int.le_ceil x
    linarith

theorem pyInt_intCast (n : ℤ) : pyInt ((n : ℝ)) = n := by
  unfold pyInt
  split
  · exact Int.floor_intCast n
  · exact Int.ceil_intCast n

theorem pyInt_add_sub_even (c k : ℤ) :
    pyInt ((c : ℝ) + (k : ℝ)) - pyInt ((c : ℝ) - (k : ℝ)) = k + k := by
  have h1 : ((c : ℝ) + (k : ℝ)) = ((c + k : ℤ) : ℝ) := by push_cast; ring
  have h2 : ((c : ℝ) - (k : ℝ)) = ((c - k : ℤ) : ℝ) := by push_cast; ring
  rw [h1, h2, pyInt_intCast, pyInt_intCast]
  omega

/-- C2: `points_between` succeeds for any `step > 0`; the returned sequence is
non-empty, its last element equals `end` exactly, and when `start == end` it is
exactly the single-element sequence `[start]`. -/
theorem points_between_last_eq_end (s e : Position2D) (step : ℝ) (h : 0 < step) :
    ∃ pts, points_between s e step = some pts ∧ pts ≠ [] ∧
      pts.getLast? = some e ∧ (s = e → pts = [s]) := by
  unfold points_between
  rw [if_neg (not_le.mpr h)]
  by_cases hse : s = e
  · subst hse
    exact ⟨[s], by rw [if_pos rfl], by simp, by simp, fun _ => rfl⟩
  · rw [if_neg hse]
    simp only
    set pts0 := interp_samples s e step with hpts0
    by_cases hlast : pts0.getLast? = some e
    · refine ⟨pts0, by rw [if_pos hlast], ?_, hlast, fun hc => absurd hc hse⟩
      intro hnil
      rw [hnil] at hlast
      simp at hlast
    · refine ⟨pts0 ++ [e], by rw [if_neg hlast], by simp, ?_, fun hc => absurd hc hse⟩
      exact List.getLast?_concat _

/-- C3: the crop-window computation raises exactly when the requested width
exceeds the map width or the requested height exceeds the map height (the
first component of `crop_size` is the height, the second the width), and
returns a rectangle otherwise. -/
theorem crop_fails_iff_too_large (image_size position : Position2D)
    (crop_size : ℤ × ℤ) :
    (get_crop_at_position image_size position crop_size = .error .cropTooLarge ↔
      ((crop_size.2 : ℝ) > image_size.x ∨ (crop_size.1 : ℝ) > image_size.y)) ∧
    ((∃ rect, get_crop_at_position image_size position crop_size = .ok rect) ↔
      ¬((crop_size.2 : ℝ) > image_size.x ∨ (crop_size.1 : ℝ) > image_size.y)) := by
  by_cases hc : (crop_size.2 : ℝ) > image_size.x ∨ (crop_size.1 : ℝ) > image_size.y
  · constructor
    · refine ⟨fun _ => hc, fun _ => ?_⟩
      unfold get_crop_at_position
      rw [if_pos hc]
    · constructor
      · rintro ⟨rect, hrect⟩
        unfold get_crop_at_position at hrect
        rw [if_pos hc] at hrect
        exact absurd hrect (by simp)
      · intro hn
        exact absurd hc hn
  · constructor
    · constructor
      · intro he
        unfold get_crop_at_position at he
        rw [if_neg hc] at he
        exact absurd he (by simp)
      · intro h
        exact absurd h hc
    · refine ⟨fun _ => hc, fun _ => ?_⟩
      unfold get_crop_at_position
      rw [if_neg hc]
      exact ⟨_, rfl⟩

theorem crop_axis_bounds (m : ℤ) (hm : 0 ≤ m) (p : ℝ) (w : ℤ)
    (hw : (w : ℝ) ≤ (m : ℝ)) :
    0 ≤ pyInt ((pyInt (max ((w : ℝ) / 2) (min p ((m : ℝ) - (w : ℝ) / 2))) : ℝ)
        - (w : ℝ) / 2) ∧
    pyInt ((pyInt (max ((w : ℝ) / 2) (min p ((m : ℝ) - (w : ℝ) / 2))) : ℝ)
        + (w : ℝ) / 2) ≤ m := by
  set v := max ((w : ℝ) / 2) (min p ((m : ℝ) - (w : ℝ) / 2)) with hv
  have hv1 : (w : ℝ) / 2 ≤ v := le_max_left _ _
  have hv2 : v ≤ (m : ℝ) - (w : ℝ) / 2 := by
    apply max_le
    · linarith
    · exact (min_le_right _ _)
  set c := pyInt v with hc
  have hclb : (w : ℝ) / 2 - 1 < (c : ℝ) := by
    have := pyInt_lower v
    linarith
  constructor
  · apply pyInt_nonneg
    linarith
  · apply pyInt_le _ hm
    by_cases h0 : 0 ≤ v
    · have := pyInt_le_self h0
      linarith
    · have hvle : v ≤ 0 := le_of_lt (lt_of_not_ge h0)
      have hc0 : c ≤ 0 := pyInt_nonpos hvle
      have hc0r : (c : ℝ) ≤ 0 := by exact_mod_cast hc0
      have hw2 : (w : ℝ) / 2 ≤ 0 := le_trans hv1 hvle
      have hm0 : (0 : ℝ) ≤ (m : ℝ) := by exact_mod_cast hm
      linarith

/-- C4: for every focus point (inside or outside the map) and every window
size fitting within the map size, the returned rectangle lies fully inside
`[0,0]..map_size`: left and top are at least 0, right is at most
`map_size.x`, bottom at most `map_size.y`. -/
theorem crop_window_in_bounds (mx my : ℕ) (position : Position2D) (w h : ℤ)
    (hw : (w : ℝ) ≤ (mx : ℝ)) (hh : (h : ℝ) ≤ (my : ℝ)) :
    ∃ l t r b,
      get_crop_at_position ⟨(mx : ℝ), (my : ℝ)⟩ position (h, w) = .ok (l, t, r, b) ∧
      0 ≤ l ∧ 0 ≤ t ∧ r ≤ (mx : ℤ) ∧ b ≤ (my : ℤ) := by
  have hno : ¬((w : ℝ) > (Position2D.mk (mx : ℝ) (my : ℝ)).x ∨
      (h : ℝ) > (Position2D.mk (mx : ℝ) (my : ℝ)).y) := by
    push_neg
    exact ⟨hw, hh⟩
  have hx := crop_axis_bounds (mx : ℤ) (by positivity) position.x w (by exact_mod_cast hw)
  have hy := crop_axis_bounds (my : ℤ) (by positivity) position.y h (by exact_mod_cast hh)
  unfold get_crop_at_position
  rw [if_neg hno]
  refine ⟨_, _, _, _, rfl, ?_, ?_, ?_, ?_⟩
  · dsimp only
    exact_mod_cast hx.1
  · dsimp only
    exact_mod_cast hy.1
  · dsimp only
    exact_mod_cast hx.2
  · dsimp only
    exact_mod_cast hy.2

/-- C4 witness: a concrete in-bounds instance (map 1000 by 800, window
512 by 512, focus at (-3.5, 9000)). -/
theorem crop_window_in_bounds_witness :
    ((512 : ℝ) ≤ ((1000 : ℕ) : ℝ)) ∧ ((512 : ℝ) ≤ ((800 : ℕ) : ℝ)) ∧
    ∃ l t r b,
      get_crop_at_position ⟨((1000 : ℕ) : ℝ), ((800 : ℕ) : ℝ)⟩ ⟨-3.5, 9000⟩
        ((512 : ℤ), (512 : ℤ)) = .ok (l, t, r, b) ∧
      0 ≤ l ∧ 0 ≤ t ∧ r ≤ ((1000 : ℕ) : ℤ) ∧ b ≤ ((800 : ℕ) : ℤ) :=
  ⟨by norm_num, by norm_num,
    crop_window_in_bounds 1000 800 ⟨-3.5, 9000⟩ 512 512 (by norm_num) (by norm_num)⟩

/-- C2 witness: `points_between` at a concrete degenerate input
(`start = end = (1, 2)`, `step = 1`). -/
theorem points_between_last_eq_end_witness :
    (0 : ℝ) < 1 ∧
    ∃ pts, points_between ⟨1, 2⟩ ⟨1, 2⟩ 1 = some pts ∧ pts ≠ [] ∧
      pts.getLast? = some ⟨1, 2⟩ ∧ (Position2D.mk 1 2 = ⟨1, 2⟩ → pts = [⟨1, 2⟩]) :=
  ⟨by norm_num, points_between_last_eq_end ⟨1, 2⟩ ⟨1, 2⟩ 1 (by norm_num)⟩

/-- C10: for a crop size with positive even components passing the size
check, the rectangle has width `crop_size[1]` (second component) and height
`crop_size[0]` (first component): `right - left = crop_size.2` and
`bottom - top = crop_size.1`. -/
theorem crop_window_exact_size (image_size position : Position2D)
    (crop_size : ℤ × ℤ)
    (hp1 : 0 < crop_size.1) (hp2 : 0 < crop_size.2)
    (he1 : Even crop_size.1) (he2 : Even crop_size.2)
    (hfits : ¬((crop_size.2 : ℝ) > image_size.x ∨ (crop_size.1 : ℝ) > image_size.y)) :
    ∃ l t r b,
      get_crop_at_position image_size position crop_size = .ok (l, t, r, b) ∧
      r - l = crop_size.2 ∧ b - t = crop_size.1 := by
  obtain ⟨kh, hkh⟩ := he1
  obtain ⟨kw, hkw⟩ := he2
  have hw2 : (crop_size.2 : ℝ) / 2 = (kw : ℝ) := by
    rw [hkw]
    push_cast
    ring
  have hh2 : (crop_size.1 : ℝ) / 2 = (kh : ℝ) := by
    rw [hkh]
    push_cast
    ring
  unfold get_crop_at_position
  rw [if_neg hfits]
  refine ⟨_, _, _, _, rfl, ?_, ?_⟩
  · rw [hw2, pyInt_add_sub_even]
    omega
  · rw [hh2, pyInt_add_sub_even]
    omega

/-- C10 witness: crop size `(100, 512)` (height 100, width 512) on a
600 by 400 map. -/
theorem crop_window_exact_size_witness :
    (0 : ℤ) < 100 ∧ (0 : ℤ) < 512 ∧ Even (100 : ℤ) ∧ Even (512 : ℤ) ∧
    ¬(((512 : ℤ) : ℝ) > (Position2D.mk 600 400).x ∨
      ((100 : ℤ) : ℝ) > (Position2D.mk 600 400).y) ∧
    ∃ l t r b,
      get_crop_at_position ⟨600, 400⟩ ⟨77, -5⟩ ((100 : ℤ), (512 : ℤ)) = .ok (l, t, r, b) ∧
      r - l = (100, (512 : ℤ)).2 ∧ b - t = ((100 : ℤ), (512 : ℤ)).1 :=
  ⟨by norm_num, by norm_num, by decide, by decide,
    by norm_num,
    crop_window_exact_size ⟨600, 400⟩ ⟨77, -5⟩ (100, 512) (by norm_num) (by norm_num)
      (by decide) (by decide) (by norm_num)⟩

/-- A map reference, standing for a `GameMap` object as seen from a
`Location` (`src/wanderer/game.py`).  Python compares maps by object
identity (`movement.start.game_map != movement.end.game_map`); identity is
modelled by the `id` field. -/
structure MapRef where
  id : ℕ
  image_size : Position2D
  speed_multiplier : ℝ

/-- `Location` from `src/wanderer/game.py`. -/
structure Location where
  name : String
  position : Position2D
  game_map : MapRef

/-- `MovementType` from `src/wanderer/game.py` (`assert pixels_per_second >= 0`
at construction is carried as a hypothesis where needed). -/
structure MovementType where
  name : String
  pixels_per_second : ℝ
  colour_code : String

/-- `Movement` from `src/wanderer/game.py`. -/
structure Movement where
  start : Location
  «end» : Location
  movement_type : MovementType

/-- The resolver-facing state of a `GameMap`: its location dictionary,
keyed by slugified name (built by `add_location` at load time). -/
structure GameMap where
  ref : MapRef
  location_map : List (String × Location)

/-- `Game` from `src/wanderer/game.py` (the fields the core uses). -/
structure Game where
  movement_types : List MovementType
  game_maps : List GameMap

/-- Python `str.isspace` for the ASCII whitespace stripped by `str.strip()`. -/
def isPySpace (c : Char) : Bool :=
  c = ' ' || c = '\t' || c = '\n' || c = '\x0d' || c = '\x0b' || c = '\x0c'

/-- Python `str.strip()`: drop leading and trailing whitespace. -/
def pyStrip (s : String) : String :=
  (((s.toList.dropWhile isPySpace).reverse.dropWhile isPySpace).reverse).asString

/-- Python `str.lower()` (ASCII; the movement-type names in play are ASCII). -/
def pyLower (s : String) : String :=
  (s.toList.map Char.toLower).asString

def listStartsWith : List Char → List Char → Bool
  | _, [] => true
  | [], _ :: _ => false
  | c :: cs, p :: ps => c = p && listStartsWith cs ps

/-- `re.match("^start in (?P<location>.+)$", line)` on a stripped line
(`Game.parse_route_file`, first line): matches iff the line starts with
`start in ` followed by at least one character; the group is everything
after the literal prefix.  `.` does not match a newline; inputs come from
`readlines()` and are stripped, so only an interior newline can occur, on
which the regex fails. -/
def parseStartLine (line : String) : Option String :=
  let cs := line.toList
  if listStartsWith cs "start in ".toList then
    let rest := cs.drop 9
    if rest ≠ [] ∧ ¬ rest.contains '\n' then some rest.asString else none
  else none

/-- The search behind `re.match("^(?P<movement>.+?) to (?P<location>.+?)$", s)`
(`Game.parse_route_str`): both groups are lazy, so the string is split at the
first occurrence of `" to "` that leaves a non-empty movement before it and a
non-empty location after it. -/
def routeSplit : List Char → List Char → Option (List Char × List Char)
  | pre, ' ' :: 't' :: 'o' :: ' ' :: c :: cs =>
    if pre.isEmpty then routeSplit (pre ++ [' ']) ('t' :: 'o' :: ' ' :: c :: cs)
    else some (pre, c :: cs)
  | pre, c :: cs => routeSplit (pre ++ [c]) cs
  | _, [] => none

/-- `Game.parse_route_str`: parse `<movement> to <location>`, raising
`ValueError` on a non-matching line. -/
def parse_route_str (route_str : String) : Except PyErr (String × String) :=
  match routeSplit [] route_str.toList with
  | some (m, l) => .ok (m.asString, l.asString)
  | none => .error (.badRouteLine route_str)

/-- `GameMap.find_location_by_name` from `src/wanderer/game.py`:
exact mode is a dictionary lookup of the slugified name; fuzzy mode keeps
every location whose raw name scores at least 55 under `fuzz.ratio`.
`slug` (python-slugify) and `ratio` (rapidfuzz, 0..100) are external
libraries, taken as parameters. -/
def GameMap.find_location_by_name (slug : String → String)
    (ratio : String → String → ℚ) (gm : GameMap) (location_name : String)
    (fuzzy : Bool) : List Location :=
  if fuzzy then
    (gm.location_map.map Prod.snd).filter
      (fun location => (55 : ℚ) ≤ ratio location_name location.name)
  else
    match gm.location_map.lookup (slug location_name) with
    | some location => [location]
    | none => []

/-- `Game.find_location_by_name` from `src/wanderer/game.py`:
collect exact hits across all maps; more than one is an error; zero exact
hits falls back to the fuzzy search, whose hits are enumerated as
suggestions in the `ValueError` message; a unique exact hit is returned. -/
def Game.find_location_by_name (slug : String → String)
    (ratio : String → String → ℚ) (g : Game) (location_name : String) :
    Except PyErr Location :=
  let locations := g.game_maps.flatMap
    (fun gm => gm.find_location_by_name slug ratio location_name false)
  if 1 < locations.length then .error (.tooManyLocations location_name)
  else
    match locations with
    | [] =>
      let fuzzy_locations := g.game_maps.flatMap
        (fun gm => gm.find_location_by_name slug ratio location_name true)
      if fuzzy_locations.isEmpty then .error (.locationNotFound location_name [])
      else .error (.locationNotFound location_name
        (fuzzy_locations.map Location.name))
    | location :: _ => .ok location

/-- `Game.get_movement_type`: case-insensitive exact match against the
registered movement types; zero or multiple matches raise. -/
def Game.get_movement_type (g : Game) (movement_type_name : String) :
    Except PyErr MovementType :=
  let matching_types := g.movement_types.filter
    (fun movement_type => pyLower movement_type.name = pyLower movement_type_name)
  match matching_types with
  | [] => .error (.unknownMovementType movement_type_name)
  | [movement_type] => .ok movement_type
  | _ => .error (.tooManyMovementTypes movement_type_name)

/-- The movement-line loop of `Game.parse_route_file` (`lines[1:]`): skip
blank lines; each parsed line yields a `Movement` from the previous
location to the resolved one. -/
def route_movements (slug : String → String) (ratio : String → String → ℚ)
    (g : Game) (last_location : Location) :
    List String → Except PyErr (List Movement)
  | [] => .ok []
  | line :: rest =>
    let l := pyStrip line
    if l = "" then route_movements slug ratio g last_location rest
    else
      match parse_route_str l with
      | .error e => .error e
      | .ok (movement, location_name) =>
        match Game.find_location_by_name slug ratio g location_name with
        | .error e => .error e
        | .ok next_location =>
          match Game.get_movement_type g movement with
          | .error e => .error e
          | .ok movement_type =>
            match route_movements slug ratio g next_location rest with
            | .error e => .error e
            | .ok movements =>
              .ok (Movement.mk last_location next_location movement_type :: movements)

/-- `Game.parse_route_file` from `src/wanderer/game.py`, modelled on the
file's lines (the route-directory lookup and file read are external I/O).

```
start_match = re.match("^start in (?P<location>.+)$", lines[0].strip())
location_name = start_match.group("location")   -- AttributeError if no match
start_location = self.find_location_by_name(location_name)
... loop over lines[1:] ...
```

`lines[0]` on an empty file raises `IndexError`; a non-matching first line
leaves `start_match = None`, so `.group` raises `AttributeError` (not a
`ValueError`). -/
def parse_route_file (slug : String → String) (ratio : String → String → ℚ)
    (g : Game) (lines : List String) : Except PyErr (List Movement) :=
  match lines with
  | [] => .error .indexError
  | first :: rest =>
    match parseStartLine (pyStrip first) with
    | none => .error .attributeError
    | some location_name =>
      match Game.find_location_by_name slug ratio g location_name with
      | .error e => .error e
      | .ok start_location => route_movements slug ratio g start_location rest

/-- C6: with zero exact (slug-normalized) hits across all maps, location
resolution always raises `LocationNotFound` and never returns a location;
the suggestions carried by the error are exactly the names of the markers
scoring at or above the fuzzy threshold (so they are empty iff no marker
scores that high). -/
theorem find_location_zero_exact_hits (slug : String → String)
    (ratio : String → String → ℚ) (g : Game) (location_name : String)
    (hexact : g.game_maps.flatMap
      (fun gm => gm.find_location_by_name slug ratio location_name false) = []) :
    Game.find_location_by_name slug ratio g location_name =
      .error (.locationNotFound location_name
        ((g.game_maps.flatMap
          (fun gm => gm.find_location_by_name slug ratio location_name true)).map
          Location.name)) := by
  unfold Game.find_location_by_name
  rw [hexact]
  simp only [List.length_nil]
  rw [if_neg (by norm_num)]
  split
  · next hE =>
    rw [List.isEmpty_iff] at hE
    rw [hE]
    rfl
  · next hE => rfl

def wSlug : String → String := fun s => s

def wRatio : String → String → ℚ := fun _ _ => 60

def sampleMap : MapRef := ⟨0, ⟨1000, 800⟩, 1⟩

def locGoodsprings : Location := ⟨"Goodsprings", ⟨10, 20⟩, sampleMap⟩

def locJean : Location := ⟨"Jean", ⟨40, 60⟩, sampleMap⟩

def mtWalk : MovementType := ⟨"Walk", 10, "#ff0000"⟩

def sampleGame : Game :=
  ⟨[mtWalk], [⟨sampleMap, [("goodsprings", locGoodsprings), ("jean", locJean)]⟩]⟩

/-- C6 witness: resolving `Riverwood` against the sample game (no exact hit;
both markers score 60 ≥ 55 under the concrete ratio, so both are suggested). -/
theorem find_location_zero_exact_hits_witness :
    sampleGame.game_maps.flatMap
      (fun gm => gm.find_location_by_name wSlug wRatio "Riverwood" false) = [] ∧
    Game.find_location_by_name wSlug wRatio sampleGame "Riverwood" =
      .error (.locationNotFound "Riverwood"
        ((sampleGame.game_maps.flatMap
          (fun gm => gm.find_location_by_name wSlug wRatio "Riverwood" true)).map
          Location.name)) :=
  ⟨rfl, find_location_zero_exact_hits wSlug wRatio sampleGame "Riverwood" rfl⟩

/-- C5 (code bug): when the first line of a route does not match
`start in <location>`, `re.match` returns `None` and the unguarded
`start_match.group("location")` raises `AttributeError` — a crash, not the
`ValueError`-based route-syntax error of the documented taxonomy. -/
theorem parse_route_file_bad_first_line (slug : String → String)
    (ratio : String → String → ℚ) (g : Game) (first : String)
    (rest : List String) (h : parseStartLine (pyStrip first) = none) :
    parse_route_file slug ratio g (first :: rest) = .error .attributeError := by
  simp only [parse_route_file, h]

/-- C5 witness: the concrete malformed first line `begin at Goodsprings`. -/
theorem parse_route_file_bad_first_line_witness :
    parseStartLine (pyStrip "begin at Goodsprings") = none ∧
    parse_route_file wSlug wRatio sampleGame ["begin at Goodsprings"] =
      .error .attributeError :=
  ⟨rfl, parse_route_file_bad_first_line wSlug wRatio sampleGame
    "begin at Goodsprings" [] rfl⟩

theorem route_movements_chain (slug : String → String)
    (ratio : String → String → ℚ) (g : Game) :
    ∀ (lines : List String) (last_location : Location) (ms : List Movement),
      route_movements slug ratio g last_location lines = .ok ms →
      List.Chain' (fun a b => b.start = a.«end») ms ∧
      (∀ m0, ms.head? = some m0 → m0.start = last_location) := by
  intro lines
  induction lines with
  | nil =>
    intro last ms h
    unfold route_movements at h
    injection h with h
    subst h
    exact ⟨List.chain'_nil, fun m0 hm0 => by simp at hm0⟩
  | cons line rest ih =>
    intro last ms h
    unfold route_movements at h
    by_cases hb : pyStrip line = ""
    · rw [if_pos hb] at h
      exact ih last ms h
    · rw [if_neg hb] at h
      split at h
      · exact absurd h (by simp)
      · next movement location_name heq1 =>
        split at h
        · exact absurd h (by simp)
        · next next_location heq2 =>
          split at h
          · exact absurd h (by simp)
          · next movement_type heq3 =>
            split at h
            · exact absurd h (by simp)
            · next movements heq4 =>
              injection h with h
              subst h
              obtain ⟨ihc, ihh⟩ := ih next_location movements heq4
              refine ⟨List.chain'_cons'.mpr ⟨?_, ihc⟩, ?_⟩
              · intro b hb2
                exact ihh b hb2
              · intro m0 hm0
                simp only [List.head?_cons, Option.some.injEq] at hm0
                subst hm0
                rfl

/-- C8: every route the compiler accepts is chained: the start of movement
`i+1` equals the end of movement `i`, and the start of the first movement is
the location resolved from the `start in` first line. -/
theorem parse_route_file_chained (slug : String → String)
    (ratio : String → String → ℚ) (g : Game) (lines : List String)
    (ms : List Movement) (h : parse_route_file slug ratio g lines = .ok ms) :
    List.Chain' (fun a b => b.start = a.«end») ms ∧
    ∀ m0, ms.head? = some m0 →
      ∃ first rest location_name start_location,
        lines = first :: rest ∧
        parseStartLine (pyStrip first) = some location_name ∧
        Game.find_location_by_name slug ratio g location_name = .ok start_location ∧
        m0.start = start_location := by
  cases lines with
  | nil =>
    simp only [parse_route_file] at h
    exact absurd h (by simp)
  | cons first rest =>
    simp only [parse_route_file] at h
    split at h
    · exact absurd h (by simp)
    · next location_name heq1 =>
      split at h
      · exact absurd h (by simp)
      · next start_location heq2 =>
        obtain ⟨hc, hh⟩ := route_movements_chain slug ratio g rest start_location ms h
        exact ⟨hc, fun m0 hm0 =>
          ⟨first, rest, location_name, start_location, rfl, heq1, heq2, hh m0 hm0⟩⟩

/-- C8 witness: the two-line route `start in goodsprings` / `Walk to jean`
compiles against the sample game to a single chained movement. -/
theorem parse_route_file_chained_witness :
    parse_route_file wSlug wRatio sampleGame ["start in goodsprings", "Walk to jean"] =
      .ok [Movement.mk locGoodsprings locJean mtWalk] ∧
    (List.Chain' (fun a b => b.start = a.«end»)
        [Movement.mk locGoodsprings locJean mtWalk] ∧
      ∀ m0, [Movement.mk locGoodsprings locJean mtWalk].head? = some m0 →
        ∃ first rest location_name start_location,
          ["start in goodsprings", "Walk to jean"] = first :: rest ∧
          parseStartLine (pyStrip first) = some location_name ∧
          Game.find_location_by_name wSlug wRatio sampleGame location_name =
            .ok start_location ∧
          m0.start = start_location) :=
  ⟨rfl, parse_route_file_chained wSlug wRatio sampleGame
    ["start in goodsprings", "Walk to jean"]
    [Movement.mk locGoodsprings locJean mtWalk] rfl⟩

/-- The two per-movement phases of `GameRenderer.render_route`. -/
inductive Phase where
  | MOVEMENT : Phase
  | TRANSITION : Phase
  deriving DecidableEq

/-- The per-movement branch of `GameRenderer.render_route`
(`src/wanderer/renderer.py` lines 32-50):
`if movement.start.game_map != movement.end.game_map:` cross-fade via
`render_map_transition`, else `render_movement`.  Python compares the map
objects by identity (modelled by `MapRef.id`); the movement type's speed
plays no role in the branch. -/
def render_route_phase (movement : Movement) : Phase :=
  if movement.start.game_map.id ≠ movement.«end».game_map.id then .TRANSITION
  else .MOVEMENT

/-- The fixed `frame_rate = 24` local of `GameRenderer.render_route`. -/
def render_route_frame_rate : ℤ := 24

/-- A zero-speed movement type (`assert pixels_per_second >= 0` permits 0). -/
def mtTeleport : MovementType := ⟨"Teleport", 0, "#0000ff"⟩

/-- A movement with `pixels_per_second = 0` whose two markers are on the
same map. -/
def teleportSameMap : Movement := ⟨locGoodsprings, locJean, mtTeleport⟩

/-- C1 counterexample: a movement with `pixels_per_second = 0` whose start
and end markers share a map is dispatched to the MOVEMENT branch, not the
TRANSITION branch. -/
theorem zero_speed_same_map_is_movement_phase :
    teleportSameMap.movement_type.pixels_per_second = 0 ∧
    teleportSameMap.start.game_map = teleportSameMap.«end».game_map ∧
    render_route_phase teleportSameMap = .MOVEMENT ∧
    render_route_phase teleportSameMap ≠ .TRANSITION := by
  refine ⟨rfl, rfl, rfl, ?_⟩
  intro hc
  exact Phase.noConfusion ((rfl :
    render_route_phase teleportSameMap = .MOVEMENT).symm.trans hc)

/-- C1 amended: the renderer enters TRANSITION exactly when the start and
end maps differ; the speed (including the `0` sentinel) plays no role, so a
zero-speed same-map movement enters MOVEMENT (where the interpolator's
positive-step assertion then fails). -/
theorem render_route_phase_iff (movement : Movement) :
    (render_route_phase movement = .TRANSITION ↔
      movement.start.game_map.id ≠ movement.«end».game_map.id) ∧
    (render_route_phase movement = .MOVEMENT ↔
      movement.start.game_map.id = movement.«end».game_map.id) := by
  by_cases h : movement.start.game_map.id = movement.«end».game_map.id
  · rw [render_route_phase, if_neg (by simpa using h)]
    simp [h]
  · rw [render_route_phase, if_pos h]
    simp [h]

/-- An image crop abstracted to its pixel values (pixel index to channel
value). -/
def Pix : Type := ℕ → ℚ

/-- `PIL.Image.blend(im1, im2, alpha)`: pointwise
`im1 + alpha * (im2 - im1)`. -/
def blendImage (im1 im2 : Pix) (alpha : ℚ) : Pix :=
  fun p => im1 p + (im2 p - im1 p) * alpha

/-- The frame loop of `GameRenderer.render_map_transition`
(`src/wanderer/renderer.py` lines 122-151), given the two crops (each cut
with `get_crop_at_position`, modelled above):

```
frame_count = int(frame_rate / 2)
for i in range(frame_count):
    final = Image.blend(base_crop, overlay_crop, i / frame_count)
    ... save ...
```
-/
def render_map_transition_frames (base_crop overlay_crop : Pix)
    (frame_rate : ℤ) : List Pix :=
  let frame_count : ℤ := pyInt ((frame_rate : ℚ) / 2)
  (List.range frame_count.toNat).map
    (fun i => blendImage base_crop overlay_crop ((i : ℚ) / (frame_count : ℚ)))

/-- C7: at the renderer's fixed frame rate 24, every transition emits
exactly 12 frames — and `12 = round(frame_rate * transition_seconds)` for
the documented `transition_seconds = 1/2` — where frame `i` is the alpha
blend of the two crops with factor `i / 12`; the first frame is the pure
start crop, and the last frame (factor `11/12`) is not a pure end crop
wherever the crops differ. -/
theorem render_map_transition_spec (base_crop overlay_crop : Pix) :
    (render_map_transition_frames base_crop overlay_crop
      render_route_frame_rate).length = 12 ∧
    ((12 : ℤ) = round ((24 : ℚ) * (1 / 2))) ∧
    (∀ i : ℕ, i < 12 →
      (render_map_transition_frames base_crop overlay_crop
        render_route_frame_rate)[i]? =
        some (blendImage base_crop overlay_crop ((i : ℚ) / 12))) ∧
    (render_map_transition_frames base_crop overlay_crop
      render_route_frame_rate).head? = some base_crop ∧
    (∀ f p,
      (render_map_transition_frames base_crop overlay_crop
        render_route_frame_rate).getLast? = some f →
      base_crop p ≠ overlay_crop p → f p ≠ overlay_crop p) := by
  have h1 : pyInt ((((24 : ℤ) : ℚ)) / 2) = 12 := by norm_num [pyInt]
  have hfc : render_map_transition_frames base_crop overlay_crop
      render_route_frame_rate =
      (List.range 12).map (fun i : ℕ => blendImage base_crop overlay_crop ((i : ℚ) / 12)) := by
    simp only [render_map_transition_frames, render_route_frame_rate, h1]
    rfl
  have hget : ∀ i : ℕ, i < 12 →
      (render_map_transition_frames base_crop overlay_crop
        render_route_frame_rate)[i]? =
      some (blendImage base_crop overlay_crop ((i : ℚ) / 12)) := by
    intro i hi
    rw [hfc, List.getElem?_map, List.getElem?_range hi]
    rfl
  have hlen : (render_map_transition_frames base_crop overlay_crop
      render_route_frame_rate).length = 12 := by
    rw [hfc]
    simp
  refine ⟨hlen, ?_, hget, ?_, ?_⟩
  · rw [show (24 : ℚ) * (1 / 2) = ((12 : ℤ) : ℚ) by norm_num, round_intCast]
  · rw [List.head?_eq_getElem?, hget 0 (by norm_num)]
    congr 1
    funext p
    simp [blendImage]
  · intro f p hlast hne
    rw [List.getLast?_eq_getElem?, hlen] at hlast
    norm_num at hlast
    rw [hget 11 (by norm_num)] at hlast
    injection hlast with hlast
    subst hlast
    simp only [blendImage]
    intro hcontra
    apply hne
    linarith

/-- `MovementType.colour_tuple()`, as called by `GameRenderer.render_movement`
(`src/wanderer/renderer.py` line 99, `fill=movement.movement_type.colour_tuple()`):
`MovementType` in `src/wanderer/game.py` defines only the `colour_code`
attribute and no `colour_tuple` method exists anywhere in the repository, so
the attribute access raises `AttributeError` unconditionally.  The RGB-tuple
result type is what the call site expects of it; no value is ever produced. -/
def MovementType.colour_tuple (_mt : MovementType) : Except PyErr (ℕ × ℕ × ℕ) :=
  .error .attributeError

/-- The raster operations `GameRenderer.render_movement` performs, as a free
term algebra over opaque base images.  `Image.copy()` is the identity on
image values (Python copies so that later `ImageDraw` calls do not alias;
value-wise the copy is the same image). -/
inductive Img where
  | base (id : ℕ) : Img
  | drawLine (im : Img) (x1 y1 x2 y2 : ℝ) (colour : ℕ × ℕ × ℕ) : Img
  | pasteArrow (im : Img) (sx sy ex ey cx cy : ℝ) : Img
  | crop (im : Img) (rect : ℤ × ℤ × ℤ × ℤ) : Img

/-- The state `render_movement` threads: the map's stored image
(`movement.start.game_map.image`), the ordered trace of assignments to that
attribute, and the emitted frames. -/
structure MoveState where
  mapImage : Img
  writes : List Img
  frames : List Img

/-- `im = base_image.copy(); ImageDraw(im).line((start.x, start.y, point.x,
point.y), fill=colour)` with `colour` the evaluated fill argument — always
drawn on the `base_image` captured before the loop. -/
def drawnTo (movement : Movement) (base_image : Img) (point : Position2D)
    (colour : ℕ × ℕ × ℕ) : Img :=
  Img.drawLine base_image movement.start.position.x movement.start.position.y
    point.x point.y colour

open Classical in
/-- The `for point in points:` loop of `GameRenderer.render_movement`
(`src/wanderer/renderer.py` lines 89-118):

```
for point in points:
    im = base_image.copy()
    draw = ImageDraw(im)
    draw.line((start.x, start.y, point.x, point.y),
              fill=movement.movement_type.colour_tuple())
    ... output path, index ...
    if point == points[-1]:
        movement.start.game_map.image = im.copy()     -- the only mutation
    im = self.overlay_arrow(im, start, end, current=point)
    crop = im.crop(map.get_crop_at_position(point, (512, 512)))
    crop.save(...)
```

`lastPoint` is `points[-1]` (`points.getLast?`); the output-file naming and
index bookkeeping are dropped.  Evaluating the `fill` argument calls the
nonexistent `colour_tuple` method, so the first iteration raises before the
line is drawn. -/
noncomputable def render_movement_loop (movement : Movement) (base_image : Img)
    (lastPoint : Option Position2D) :
    List Position2D → MoveState → Except PyErr MoveState
  | [], st => .ok st
  | point :: rest, st =>
    match movement.movement_type.colour_tuple with
    | .error e => .error e
    | .ok colour =>
      let im := drawnTo movement base_image point colour
      let st1 := if lastPoint = some point then
          { st with mapImage := im, writes := st.writes ++ [im] }
        else st
      let im2 := Img.pasteArrow im movement.start.position.x
        movement.start.position.y movement.«end».position.x
        movement.«end».position.y point.x point.y
      match get_crop_at_position movement.start.game_map.image_size point
          ((512 : ℤ), (512 : ℤ)) with
      | .error e => .error e
      | .ok rect =>
        render_movement_loop movement base_image lastPoint rest
          { st1 with frames := st1.frames ++ [Img.crop im2 rect] }

/-- `GameRenderer.render_movement` (`src/wanderer/renderer.py` lines
72-120): compute the per-frame speed, interpolate the points, then run the
frame loop starting from the map's current stored image `base_image`. -/
noncomputable def render_movement (movement : Movement) (base_image : Img)
    (frame_rate : ℝ) : Except PyErr MoveState :=
  let movement_speed := movement.movement_type.pixels_per_second *
    movement.start.game_map.speed_multiplier / frame_rate
  match points_between movement.start.position movement.«end».position
      movement_speed with
  | none => .error .assertionError
  | some points =>
    render_movement_loop movement base_image points.getLast? points
      ⟨base_image, [], []⟩

/-- With a positive speed, `points_between` returns a non-empty (cons) list,
so the frame loop is entered. -/
theorem points_between_pos_cons (s e : Position2D) (speed : ℝ)
    (hspeed : 0 < speed) :
    ∃ p rest, points_between s e speed = some (p :: rest) := by
  unfold points_between
  rw [if_neg (not_le.mpr hspeed)]
  by_cases hse : s = e
  · rw [if_pos hse]
    exact ⟨s, [], rfl⟩
  · rw [if_neg hse]
    simp only
    split
    · next hL =>
      rcases hn : interp_samples s e speed with _ | ⟨p, rest⟩
      · rw [hn] at hL
        simp at hL
      · exact ⟨p, rest, rfl⟩
    · rcases hn : interp_samples s e speed with _ | ⟨p, rest⟩
      · exact ⟨e, [], rfl⟩
      · exact ⟨p, rest ++ [e], rfl⟩

theorem render_movement_loop_cons_crashes (movement : Movement)
    (base_image : Img) (lastPoint : Option Position2D) (p : Position2D)
    (rest : List Position2D) (st : MoveState) :
    render_movement_loop movement base_image lastPoint (p :: rest) st =
      .error .attributeError := by
  rw [render_movement_loop]
  rfl

/-- C9 (code bug): `render_movement` evaluates the trail line's fill as
`movement.movement_type.colour_tuple()`, a method `MovementType` does not
have, so every MOVEMENT phase raises `AttributeError` at its first
interpolated point — before any frame is saved and before the map's stored
image is ever reassigned.  The phase described by the claim (one bake at the
final point, frames drawn from a pre-mutation copy) is never reached. -/
theorem render_movement_always_crashes (movement : Movement) (base_image : Img)
    (frame_rate : ℝ)
    (hspeed : 0 < movement.movement_type.pixels_per_second *
      movement.start.game_map.speed_multiplier / frame_rate) :
    render_movement movement base_image frame_rate = .error .attributeError ∧
    ∀ st, render_movement movement base_image frame_rate ≠ .ok st := by
  obtain ⟨p, rest, hpb⟩ := points_between_pos_cons movement.start.position
    movement.«end».position
    (movement.movement_type.pixels_per_second *
      movement.start.game_map.speed_multiplier / frame_rate) hspeed
  have hcrash : render_movement movement base_image frame_rate =
      .error .attributeError := by
    unfold render_movement
    simp only [hpb]
    exact render_movement_loop_cons_crashes movement base_image
      ((p :: rest).getLast?) p rest ⟨base_image, [], []⟩
  refine ⟨hcrash, fun st hok => ?_⟩
  rw [hcrash] at hok
  exact absurd hok (by simp)

/-- C9 witness: the sample walk movement (speed `10 * 1 / 24 > 0`) between
two markers of the sample map crashes with `AttributeError` before emitting
a frame or writing the map image. -/
theorem render_movement_always_crashes_witness :
    (0 : ℝ) < (Movement.mk locGoodsprings locJean mtWalk).movement_type.pixels_per_second *
      (Movement.mk locGoodsprings locJean mtWalk).start.game_map.speed_multiplier / 24 ∧
    (render_movement (Movement.mk locGoodsprings locJean mtWalk) (Img.base 0) 24 =
        .error .attributeError ∧
      ∀ st, render_movement (Movement.mk locGoodsprings locJean mtWalk)
        (Img.base 0) 24 ≠ .ok st) :=
  ⟨by norm_num [mtWalk, locGoodsprings, sampleMap],
   render_movement_always_crashes (Movement.mk locGoodsprings locJean mtWalk)
     (Img.base 0) 24
     (by norm_num [mtWalk, locGoodsprings, sampleMap])⟩
